import Mathlib

/-!
Verification of the nutrition-estimation gateway of the `caloric` repository.

The development shallowly embeds the two Supabase edge functions
(`scan-meal/index.ts` and the estimate-nutrition function) and the shared
client-side response-processing pipeline of `FoodSearch.tsx`, together with
the profile calorie arithmetic of the settings page.  JavaScript values
flowing through the handlers are modelled by an inductive `Json` type;
JavaScript numbers are modelled by rationals (`ℚ`), so the arithmetic is
exact rather than IEEE-754.  Failure of `await req.json()` and of the
outbound `fetch` are modelled by explicit sum types, and each handler is a
pure function from (request body, api key, upstream outcome) to the HTTP
response it produces; the `calledUpstream` field records whether the
outbound call to the external model was made.
-/

set_option maxRecDepth 100000

namespace Caloric

/-- JSON values (also used to model arbitrary JavaScript values reaching the
handlers).  Numbers are rationals; object fields keep insertion order, and
a duplicated key is resolved by `getField` taking the last binding, as
`JSON.parse` does. -/
inductive Json where
  | null : Json
  | bool : Bool → Json
  | num : ℚ → Json
  | str : String → Json
  | arr : List Json → Json
  | obj : List (String × Json) → Json

mutual

def decEqJson : (a b : Json) → Decidable (a = b)
  | .null, .null => isTrue rfl
  | .null, .bool _ => isFalse (fun h => Json.noConfusion h)
  | .null, .num _ => isFalse (fun h => Json.noConfusion h)
  | .null, .str _ => isFalse (fun h => Json.noConfusion h)
  | .null, .arr _ => isFalse (fun h => Json.noConfusion h)
  | .null, .obj _ => isFalse (fun h => Json.noConfusion h)
  | .bool _, .null => isFalse (fun h => Json.noConfusion h)
  | .bool a, .bool b =>
    if h : a = b then isTrue (by rw [h]) else isFalse (fun hh => h (by injection hh))
  | .bool _, .num _ => isFalse (fun h => Json.noConfusion h)
  | .bool _, .str _ => isFalse (fun h => Json.noConfusion h)
  | .bool _, .arr _ => isFalse (fun h => Json.noConfusion h)
  | .bool _, .obj _ => isFalse (fun h => Json.noConfusion h)
  | .num _, .null => isFalse (fun h => Json.noConfusion h)
  | .num _, .bool _ => isFalse (fun h => Json.noConfusion h)
  | .num a, .num b =>
    if h : a = b then isTrue (by rw [h]) else isFalse (fun hh => h (by injection hh))
  | .num _, .str _ => isFalse (fun h => Json.noConfusion h)
  | .num _, .arr _ => isFalse (fun h => Json.noConfusion h)
  | .num _, .obj _ => isFalse (fun h => Json.noConfusion h)
  | .str _, .null => isFalse (fun h => Json.noConfusion h)
  | .str _, .bool _ => isFalse (fun h => Json.noConfusion h)
  | .str _, .num _ => isFalse (fun h => Json.noConfusion h)
  | .str a, .str b =>
    if h : a = b then isTrue (by rw [h]) else isFalse (fun hh => h (by injection hh))
  | .str _, .arr _ => isFalse (fun h => Json.noConfusion h)
  | .str _, .obj _ => isFalse (fun h => Json.noConfusion h)
  | .arr _, .null => isFalse (fun h => Json.noConfusion h)
  | .arr _, .bool _ => isFalse (fun h => Json.noConfusion h)
  | .arr _, .num _ => isFalse (fun h => Json.noConfusion h)
  | .arr _, .str _ => isFalse (fun h => Json.noConfusion h)
  | .arr xs, .arr ys =>
    match decEqJsonList xs ys with
    | isTrue h => isTrue (by rw [h])
    | isFalse h => isFalse (fun hh => h (by injection hh))
  | .arr _, .obj _ => isFalse (fun h => Json.noConfusion h)
  | .obj _, .null => isFalse (fun h => Json.noConfusion h)
  | .obj _, .bool _ => isFalse (fun h => Json.noConfusion h)
  | .obj _, .num _ => isFalse (fun h => Json.noConfusion h)
  | .obj _, .str _ => isFalse (fun h => Json.noConfusion h)
  | .obj _, .arr _ => isFalse (fun h => Json.noConfusion h)
  | .obj xs, .obj ys =>
    match decEqJsonFields xs ys with
    | isTrue h => isTrue (by rw [h])
    | isFalse h => isFalse (fun hh => h (by injection hh))

def decEqJsonList : (xs ys : List Json) → Decidable (xs = ys)
  | [], [] => isTrue rfl
  | [], _ :: _ => isFalse (fun h => List.noConfusion h)
  | _ :: _, [] => isFalse (fun h => List.noConfusion h)
  | x :: xs, y :: ys =>
    match decEqJson x y with
    | isFalse h1 => isFalse (fun h => h1 (by injection h))
    | isTrue h1 =>
      match decEqJsonList xs ys with
      | isTrue h2 => isTrue (by rw [h1, h2])
      | isFalse h2 => isFalse (fun h => h2 (by injection h))

def decEqJsonFields : (xs ys : List (String × Json)) → Decidable (xs = ys)
  | [], [] => isTrue rfl
  | [], _ :: _ => isFalse (fun h => List.noConfusion h)
  | _ :: _, [] => isFalse (fun h => List.noConfusion h)
  | (k, v) :: xs, (k', v') :: ys =>
    if hk : k = k' then
      match decEqJson v v' with
      | isFalse h1 => isFalse (fun h => by
          injection h with h2 _
          exact h1 (congrArg Prod.snd h2))
      | isTrue h1 =>
        match decEqJsonFields xs ys with
        | isTrue h2 => isTrue (by rw [hk, h1, h2])
        | isFalse h2 => isFalse (fun h => h2 (by injection h))
    else isFalse (fun h => by
      injection h with h2 _
      exact hk (congrArg Prod.fst h2))

end

instance : DecidableEq Json := decEqJson

/-- Last binding of a key in an association list (JavaScript object
semantics: a later duplicate key overwrites an earlier one). -/
def lookupLast (fs : List (String × Json)) (k : String) : Option Json :=
  match fs with
  | [] => none
  | (k', v) :: rest =>
    match lookupLast rest k with
    | some r => some r
    | none => if k' = k then some v else none

/-- JavaScript property read `j[k]`: defined on objects, `undefined`
(= `none`) on everything else.  (Reading a property of `null` throws in
JavaScript; every place the handlers do so, the thrown `TypeError` lands in
the same `catch` as the model's else-branch, so the thrown case is handled
explicitly at each use site.) -/
def getField (j : Json) (k : String) : Option Json :=
  match j with
  | .obj fs => lookupLast fs k
  | _ => none

/-- JavaScript truthiness of a value ( `NaN` cannot occur in a `Json`
value, so numbers are falsy exactly at 0). -/
def truthy : Json → Bool
  | .null => false
  | .bool b => b
  | .num q => decide (q ≠ 0)
  | .str s => !s.isEmpty
  | .arr _ => true
  | .obj _ => true

/-- Truthiness of a possibly-`undefined` value. -/
def truthyOpt : Option Json → Bool
  | none => false
  | some j => truthy j

/-- JavaScript `a || b` for a possibly-`undefined` `a` and a constant `b`. -/
def jsOr (a : Option Json) (b : Json) : Json :=
  match a with
  | none => b
  | some v => if truthy v then v else b

/-- The decimal digit character for `n < 10`. -/
def natDigitChar (n : Nat) : Char := Char.ofNat (48 + n)

/-- Decimal digits of a natural number, most significant first
(fuel-driven; the first argument is the fuel). -/
def natDigitsAux : Nat → Nat → List Char → List Char
  | 0, _, acc => acc
  | fuel + 1, n, acc =>
    if n < 10 then natDigitChar n :: acc
    else natDigitsAux fuel (n / 10) (natDigitChar (n % 10) :: acc)

/-- Decimal rendering of a natural number. -/
def natToStr (n : Nat) : String := String.mk (natDigitsAux (n + 1) n [])

/-- Write a nonnegative rational as `m / 10^k` with `k ≤ 40` minimal, when
possible.  Every number produced by `JSON.parse` of a decimal literal has a
denominator dividing a power of ten, so this succeeds on all values the
handlers manipulate. -/
def renderScaled (q : ℚ) : Option (Nat × Nat) :=
  (List.range 41).findSome? fun k =>
    if 0 ≤ q.num ∧ 10 ^ k % q.den = 0 then some (k, q.num.toNat * (10 ^ k / q.den))
    else none

/-- Decimal rendering of a nonnegative rational (no exponent notation;
JavaScript's switch to exponent notation beyond 1e21 is not modelled). -/
def renderNumAbs (q : ℚ) : String :=
  match renderScaled q with
  | none => ""
  | some (0, m) => natToStr m
  | some (k, m) =>
    let ds := natDigitsAux (m + 1) m []
    let ds := if ds.length ≤ k then List.replicate (k + 1 - ds.length) '0' ++ ds else ds
    String.mk (ds.take (ds.length - k)) ++ "." ++ String.mk (ds.drop (ds.length - k))

/-- JavaScript number-to-string conversion, on the rational model. -/
def renderNum (q : ℚ) : String :=
  if q < 0 then "-" ++ renderNumAbs (-q) else renderNumAbs q

mutual

/-- JavaScript string coercion `String(v)` of a JSON-representable value. -/
def jsToString : Json → String
  | .null => "null"
  | .bool b => if b then "true" else "false"
  | .num q => renderNum q
  | .str s => s
  | .arr xs => String.intercalate "," (jsToStringElems xs)
  | .obj _ => "[object Object]"

/-- Strings of array elements for `Array.prototype.join` (a `null` element
joins as the empty string). -/
def jsToStringElems : List Json → List String
  | [] => []
  | x :: xs =>
    (match x with
     | .null => ""
     | v => jsToString v) :: jsToStringElems xs

end

/-- Characters stripped by JavaScript `String.prototype.trim` and by
`Number(string)` (common whitespace and line terminators). -/
def isJsSpace (c : Char) : Bool :=
  c = ' ' || c = '\t' || c = '\n' || c = '\r' || c = '\x0b' || c = '\x0c'

/-- Trim `isJsSpace` characters from both ends. -/
def trimChars (cs : List Char) : List Char :=
  ((cs.dropWhile isJsSpace).reverse.dropWhile isJsSpace).reverse

/-- JavaScript `trim()` on strings. -/
def jsTrim (s : String) : String := String.mk (trimChars s.data)

/-- Leading decimal digits of a character list, as numeric values. -/
def takeDigits : List Char → List Nat × List Char
  | [] => ([], [])
  | c :: cs =>
    if c.isDigit then
      let (ds, r) := takeDigits cs
      ((c.toNat - 48) :: ds, r)
    else ([], c :: cs)

/-- Value of a digit list, most significant first. -/
def digitsToNat (ds : List Nat) : Nat := ds.foldl (fun a d => 10 * a + d) 0

/-- Assemble a rational from sign, integer digits, fraction digits and a
decimal exponent: the value of `±ip.fp e e` is
`± (ip * 10^|fp| + fp) * 10^e / 10^|fp|`, built with `mkRat` so that it
reduces to normal form. -/
def decToRat (neg : Bool) (ip fp : List Nat) (e : ℤ) : ℚ :=
  let m : Nat := digitsToNat ip * 10 ^ fp.length + digitsToNat fp
  let n : ℤ := if neg then -(m : ℤ) else (m : ℤ)
  if 0 ≤ e then mkRat (n * ((10 ^ e.toNat : Nat) : ℤ)) (10 ^ fp.length)
  else mkRat n (10 ^ fp.length * 10 ^ (-e).toNat)

/-- Parse an optional exponent part `[eE][+-]?digits`; returns the exponent
and the rest, or `none` when an `e` is present but malformed. -/
def parseExponent (cs : List Char) : Option (ℤ × List Char) :=
  match cs with
  | 'e' :: r | 'E' :: r =>
    let (esign, r1) :=
      match r with
      | '-' :: r' => (true, r')
      | '+' :: r' => (false, r')
      | _ => (false, r)
    let (eds, r2) := takeDigits r1
    if eds.isEmpty then none
    else some (if esign then -(digitsToNat eds : ℤ) else (digitsToNat eds : ℤ), r2)
  | _ => some (0, cs)

/-- Value of a hexadecimal digit. -/
def hexVal (c : Char) : Option Nat :=
  if '0' ≤ c ∧ c ≤ '9' then some (c.toNat - 48)
  else if 'a' ≤ c ∧ c ≤ 'f' then some (c.toNat - 87)
  else if 'A' ≤ c ∧ c ≤ 'F' then some (c.toNat - 55)
  else none

/-- Digit value in the given radix (radix ≤ 16). -/
def radixVal (radix : Nat) (c : Char) : Option Nat :=
  match hexVal c with
  | some v => if v < radix then some v else none
  | none => none

/-- Value of a digit string in the given radix; `none` on a non-digit. -/
def radixToNat (radix : Nat) : List Char → Nat → Option Nat
  | [], acc => some acc
  | c :: rest, acc =>
    match radixVal radix c with
    | some v => radixToNat radix rest (radix * acc + v)
    | none => none

/-- A `0x`/`0o`/`0b` radix literal making up the whole (trimmed) string,
as `Number(string)` accepts (no sign, at least one digit). -/
def strRadixLiteral (radix : Nat) (digits : List Char) : Option ℚ :=
  match digits with
  | [] => none
  | _ =>
    match radixToNat radix digits 0 with
    | some n => some (mkRat (n : ℤ) 1)
    | none => none

/-- `Number(string)` on the decimal fragment of JavaScript's grammar
(optional sign, digits with optional fraction and exponent; the empty or
all-whitespace string is 0). -/
def strToNumberDec (t : List Char) : Option ℚ :=
  match t with
  | [] => some 0
  | _ =>
    let (neg, t1) :=
      match t with
      | '-' :: r => (true, r)
      | '+' :: r => (false, r)
      | _ => (false, t)
    let (ip, t2) := takeDigits t1
    let (fp, t3) :=
      match t2 with
      | '.' :: r => takeDigits r
      | _ => ([], t2)
    if ip.isEmpty ∧ fp.isEmpty then none
    else
      match parseExponent t3 with
      | none => none
      | some (e, t4) => if t4.isEmpty then some (decToRat neg ip fp e) else none

/-- `Number(string)`: after trimming, either an unsigned `0x`/`0o`/`0b`
radix literal or a signed decimal literal; every other form is `none`
(NaN).  The non-finite `Infinity` forms are not representable in ℚ and
are also modelled as `none`. -/
def strToNumber (s : String) : Option ℚ :=
  let t := trimChars s.data
  match t with
  | '0' :: c :: rest =>
    if c = 'x' ∨ c = 'X' then strRadixLiteral 16 rest
    else if c = 'o' ∨ c = 'O' then strRadixLiteral 8 rest
    else if c = 'b' ∨ c = 'B' then strRadixLiteral 2 rest
    else strToNumberDec t
  | _ => strToNumberDec t

/-- `Number(v)` for a possibly-`undefined` JSON-representable value
(`none` models NaN). -/
def jsToNumber : Option Json → Option ℚ
  | none => none
  | some .null => some 0
  | some (.bool b) => some (if b then 1 else 0)
  | some (.num q) => some q
  | some (.str s) => strToNumber s
  | some (.arr xs) => strToNumber (jsToString (.arr xs))
  | some (.obj _) => none

/-- The coercion `Number(v) || 0` used by the validation maps: NaN and 0
become 0, every other numeric value (negative included) passes through. -/
def numberOr0 (o : Option Json) : ℚ := (jsToNumber o).getD 0

/-- JavaScript indexing `j[i]` for a numeric index. -/
def jsIndex (j : Json) (i : Nat) : Option Json :=
  match j with
  | .arr xs => xs.get? i
  | .obj fs => lookupLast fs (natToStr i)
  | .str s => (s.data.get? i).map fun c => Json.str (String.mk [c])
  | _ => none

/-- Skip JSON insignificant whitespace (space, tab, LF, CR). -/
def skipWs : List Char → List Char
  | [] => []
  | c :: cs => if c = ' ' ∨ c = '\t' ∨ c = '\n' ∨ c = '\r' then skipWs cs else c :: cs

/-- Body of a JSON string after the opening quote: returns the decoded
characters and the rest after the closing quote.  Raw control characters
are rejected as `JSON.parse` does; a `\u` escape decodes to the code point
(surrogate-pair recombination is not modelled). -/
def parseStringBody : Nat → List Char → Option (List Char × List Char)
  | 0, _ => none
  | fuel + 1, cs =>
    match cs with
    | [] => none
    | '"' :: r => some ([], r)
    | '\\' :: r =>
      match r with
      | '"' :: r' => (parseStringBody fuel r').map fun (s, t) => ('"' :: s, t)
      | '\\' :: r' => (parseStringBody fuel r').map fun (s, t) => ('\\' :: s, t)
      | '/' :: r' => (parseStringBody fuel r').map fun (s, t) => ('/' :: s, t)
      | 'b' :: r' => (parseStringBody fuel r').map fun (s, t) => ('\x08' :: s, t)
      | 'f' :: r' => (parseStringBody fuel r').map fun (s, t) => ('\x0c' :: s, t)
      | 'n' :: r' => (parseStringBody fuel r').map fun (s, t) => ('\n' :: s, t)
      | 'r' :: r' => (parseStringBody fuel r').map fun (s, t) => ('\r' :: s, t)
      | 't' :: r' => (parseStringBody fuel r').map fun (s, t) => ('\t' :: s, t)
      | 'u' :: a :: b :: c :: d :: r' =>
        match hexVal a, hexVal b, hexVal c, hexVal d with
        | some ha, some hb, some hc, some hd =>
          let code := ((ha * 16 + hb) * 16 + hc) * 16 + hd
          (parseStringBody fuel r').map fun (s, t) => (Char.ofNat code :: s, t)
        | _, _, _, _ => none
      | _ => none
    | c :: r =>
      if c.toNat < 32 then none
      else (parseStringBody fuel r).map fun (s, t) => (c :: s, t)

/-- A strict JSON number literal at the head of the input: optional minus,
integer part without leading zeros, optional fraction, optional exponent. -/
def parseNumber (cs : List Char) : Option (Json × List Char) :=
  let (neg, cs1) :=
    match cs with
    | '-' :: r => (true, r)
    | _ => (false, cs)
  match cs1 with
  | c :: _ =>
    if ¬ c.isDigit then none
    else
      let (ip, cs2) := takeDigits cs1
      if 1 < ip.length ∧ ip.headD 0 = 0 then none
      else
        let fr : Option (List Nat × List Char) :=
          match cs2 with
          | '.' :: r =>
            let (fp, r') := takeDigits r
            if fp.isEmpty then none else some (fp, r')
          | _ => some ([], cs2)
        match fr with
        | none => none
        | some (fp, cs3) =>
          match parseExponent cs3 with
          | none => none
          | some (e, cs4) => some (Json.num (decToRat neg ip fp e), cs4)
  | [] => none

mutual

/-- One JSON value at the head of the input (fuel-driven recursive
descent, mirroring the grammar `JSON.parse` accepts). -/
def parseValue : Nat → List Char → Option (Json × List Char)
  | 0, _ => none
  | fuel + 1, cs =>
    match skipWs cs with
    | 'n' :: 'u' :: 'l' :: 'l' :: r => some (.null, r)
    | 't' :: 'r' :: 'u' :: 'e' :: r => some (.bool true, r)
    | 'f' :: 'a' :: 'l' :: 's' :: 'e' :: r => some (.bool false, r)
    | '"' :: r => (parseStringBody (fuel + 1) r).map fun (s, t) => (Json.str (String.mk s), t)
    | '[' :: r =>
      match skipWs r with
      | ']' :: r' => some (.arr [], r')
      | r' => (parseElems fuel r').map fun (xs, t) => (Json.arr xs, t)
    | '{' :: r =>
      match skipWs r with
      | '}' :: r' => some (.obj [], r')
      | r' => (parseMembers fuel r').map fun (fs, t) => (Json.obj fs, t)
    | r => parseNumber r

/-- Nonempty comma-separated array elements up to the closing bracket. -/
def parseElems : Nat → List Char → Option (List Json × List Char)
  | 0, _ => none
  | fuel + 1, cs =>
    match parseValue fuel cs with
    | none => none
    | some (x, r) =>
      match skipWs r with
      | ',' :: r' => (parseElems fuel r').map fun (xs, t) => (x :: xs, t)
      | ']' :: r' => some ([x], r')
      | _ => none

/-- Nonempty comma-separated object members up to the closing brace. -/
def parseMembers : Nat → List Char → Option (List (String × Json) × List Char)
  | 0, _ => none
  | fuel + 1, cs =>
    match skipWs cs with
    | '"' :: r =>
      match parseStringBody (fuel + 1) r with
      | none => none
      | some (k, r1) =>
        match skipWs r1 with
        | ':' :: r2 =>
          match parseValue fuel r2 with
          | none => none
          | some (v, r3) =>
            match skipWs r3 with
            | ',' :: r4 => (parseMembers fuel r4).map fun (fs, t) => ((String.mk k, v) :: fs, t)
            | '}' :: r4 => some ([(String.mk k, v)], r4)
            | _ => none
        | _ => none
    | _ => none

end

/-- `JSON.parse` on a character list: one value and nothing but whitespace
after it, else failure (the thrown `SyntaxError` is `none`). -/
def parseJson (cs : List Char) : Option Json :=
  match parseValue (2 * cs.length + 4) cs with
  | some (j, r) => if (skipWs r).isEmpty then some j else none
  | none => none

/-- `JSON.parse` on a string. -/
def parseJsonStr (s : String) : Option Json := parseJson s.data

/-- Index of the last occurrence of a character. -/
def lastIdxOf (c : Char) (cs : List Char) : Option Nat :=
  match cs.reverse.findIdx? (· = c) with
  | none => none
  | some k => some (cs.length - 1 - k)

/-- The extraction step `content.match(/\x7b[\s\S]*\x7d/)` of
`FoodSearch.tsx`: the regex is greedy, so a match runs from the FIRST `{`
of the text to the LAST `}`, and exists exactly when the first `{`
precedes the last `}`.  (It does not stop at the first balanced object.) -/
def extractJson (cs : List Char) : Option (List Char) :=
  match cs.findIdx? (· = '{'), lastIdxOf '}' cs with
  | some i, some j => if i < j then some ((cs.drop i).take (j - i + 1)) else none
  | _, _ => none

/-- Depth-counting scan collecting characters until the brace that closes
the opening one (fuel-driven). -/
def balancedScan : Nat → Nat → List Char → List Char → Option (List Char)
  | 0, _, _, _ => none
  | fuel + 1, depth, acc, cs =>
    match cs with
    | [] => none
    | c :: rest =>
      if c = '{' then balancedScan fuel (depth + 1) (c :: acc) rest
      else if c = '}' then
        if depth = 1 then some (c :: acc).reverse
        else balancedScan fuel (depth - 1) (c :: acc) rest
      else balancedScan fuel depth (c :: acc) rest

/-- Modelled from the spec: "Locate the first balanced `{...}` substring in
the raw text".  This is the comparison point for the claim that the code's
extraction does this; it is NOT what the source implements. -/
def firstBalancedSubstring (cs : List Char) : Option (List Char) :=
  let l := cs.dropWhile (· ≠ '{')
  balancedScan l.length 0 [] l

/-- A cleaned client-side result item of `FoodSearch.tsx` (`name` is the
source value kept verbatim, `none` standing for `undefined`). -/
structure FoodItem where
  name : Option Json
  calories : ℚ
  protein : ℚ
  carbs : ℚ
  fat : ℚ
  serving_size : Json
deriving DecidableEq

/-- The filter of `FoodSearch.tsx`:
`item.name && typeof item.calories === 'number' && item.calories > 0`.
(`typeof` is `'number'` exactly on `Json.num` values; `NaN` cannot come out
of `JSON.parse`.) -/
def keepItem (item : Json) : Bool :=
  truthyOpt (getField item "name") &&
  (match getField item "calories" with
   | some (Json.num q) => decide (0 < q)
   | _ => false)

/-- The map of `FoodSearch.tsx` cleaning a kept entry: numeric fields via
`Number(x) || 0`, `serving_size` defaulted to `'1 serving'`, `name` kept
verbatim. -/
def coerceItem (item : Json) : FoodItem where
  name := getField item "name"
  calories := numberOr0 (getField item "calories")
  protein := numberOr0 (getField item "protein")
  carbs := numberOr0 (getField item "carbs")
  fat := numberOr0 (getField item "fat")
  serving_size := jsOr (getField item "serving_size") (Json.str "1 serving")

/-- The fallback item of `processImageFile` in `FoodSearch.tsx`. -/
def mixedMealFallback : FoodItem :=
  ⟨some (Json.str "Mixed meal (AI estimated)"), 350, 20, 30, 15, Json.str "1 portion"⟩

/-- The fallback item of `searchFood` in `FoodSearch.tsx` (text path). -/
def estimatedFallback (query : String) : FoodItem :=
  ⟨some (Json.str (query ++ " (estimated)")), 100, 5, 15, 3, Json.str "100g"⟩

/-- The shared parse/validate pipeline of `searchFood` and
`processImageFile` in `FoodSearch.tsx`, from the model's raw text to the
list stored in `searchResults`.  Any failure inside the `try` (no regex
match, `JSON.parse` throwing, missing/non-array/empty `results`, reading a
property of a `null` entry, zero valid items) reaches the `catch`, which
substitutes the single fallback item. -/
def processContent (content : String) (fb : FoodItem) : List FoodItem :=
  match extractJson content.data with
  | none => [fb]
  | some js =>
    match parseJson js with
    | none => [fb]
    | some parsed =>
      if parsed = Json.null then [fb]
      else
        match getField parsed "results" with
        | some (Json.arr xs) =>
          if 0 < xs.length then
            if xs.any (· = Json.null) then [fb]
            else
              let valid := (xs.filter keepItem).map coerceItem
              if valid.isEmpty then [fb] else valid
          else [fb]
        | _ => [fb]

/-- An HTTP response of an edge function, together with the observation
whether the outbound `fetch` to the external model had been issued before
the response was produced. -/
structure Response where
  status : Nat
  body : Json
  calledUpstream : Bool
deriving DecidableEq

/-- Outcome of the outbound `fetch`: rejection of the fetch itself or of
reading its body (carrying `error.message`), a non-2xx reply (status and
`response.text()`), or a 2xx reply whose body parsed to the given value. -/
inductive Upstream where
  | fail (msg : String)
  | notOk (status : Nat) (errorText : String)
  | ok (data : Json)

/-- Body `{ "error": msg }`. -/
def errObj (msg : String) : Json := Json.obj [("error", Json.str msg)]

/-- Body `{ "error": msg, k: v }` (used with `"details"` and
`"message"`). -/
def errObj2 (msg k v : String) : Json :=
  Json.obj [("error", Json.str msg), (k, Json.str v)]

/-- The message of a thrown `TypeError` (engine-specific text, modelled as
a constant; no claim depends on its wording). -/
def typeErrMsg : String := "TypeError"

/-- Key truthiness for `Deno.env.get(...)`: absent or empty is falsy. -/
def keyTruthy : Option String → Bool
  | none => false
  | some s => !s.isEmpty

/-- `data.choices[0].message.content.trim()` of the estimate-nutrition
function (no optional chaining): `Except.error` models a thrown
`TypeError` (which the outer catch turns into a 500), success yields the
trimmed string.  A non-string `content` has no `.trim` method and also
throws. -/
def getContentEstimate (data : Json) : Except Unit String :=
  match getField data "choices", data with
  | _, .null => .error ()
  | none, _ => .error ()
  | some choices, _ =>
    match choices with
    | .null => .error ()
    | _ =>
      match jsIndex choices 0 with
      | none => .error ()
      | some .null => .error ()
      | some e0 =>
        match getField e0 "message" with
        | none => .error ()
        | some .null => .error ()
        | some msg =>
          match getField msg "content" with
          | some (.str s) => .ok (jsTrim s)
          | _ => .error ()

/-- `openaiData.choices[0]?.message?.content` of `scan-meal/index.ts`
(optional chaining after `choices[0]` and after `.message`):
`Except.error` models a thrown `TypeError` (reading `[0]` of a missing or
`null` `choices`), success yields the possibly-`undefined` content. -/
def getContentScan (data : Json) : Except Unit (Option Json) :=
  match getField data "choices", data with
  | _, .null => .error ()
  | none, _ => .error ()
  | some choices, _ =>
    match choices with
    | .null => .error ()
    | _ =>
      match jsIndex choices 0 with
      | none => .ok none
      | some .null => .ok none
      | some e0 =>
        match getField e0 "message" with
        | none => .ok none
        | some .null => .ok none
        | some msg => .ok (getField msg "content")

/-- The per-item map of `scan-meal/index.ts` (lines 131-138): every entry
of `results` is kept, with `name`/`serving_size` defaulted through `||`
and numeric fields coerced through `Number(x) || 0`. -/
def validateItem (item : Json) : Json :=
  Json.obj [
    ("name", jsOr (getField item "name") (Json.str "Unknown food")),
    ("calories", Json.num (numberOr0 (getField item "calories"))),
    ("protein", Json.num (numberOr0 (getField item "protein"))),
    ("carbs", Json.num (numberOr0 (getField item "carbs"))),
    ("fat", Json.num (numberOr0 (getField item "fat"))),
    ("serving_size", jsOr (getField item "serving_size") (Json.str "1 serving"))]

/-- The hardcoded parse-failure fallback body of `scan-meal/index.ts`. -/
def scanFallbackBody : Json :=
  Json.obj [("results", Json.arr [Json.obj [
    ("name", Json.str "Mixed meal (AI estimated)"),
    ("calories", Json.num 350),
    ("protein", Json.num 20),
    ("carbs", Json.num 30),
    ("fat", Json.num 15),
    ("serving_size", Json.str "1 portion")]])]

/-- Lines 41-171 of `scan-meal/index.ts`: the stage from the `fetch`
onward (so `calledUpstream` is `true` throughout).  A `null` entry inside
`results` makes the mapping throw (`null.name`), which the inner catch
turns into the fallback body. -/
def scanMealUpstream (up : Upstream) : Response :=
  match up with
  | .fail msg => ⟨500, errObj2 "Internal server error" "message" msg, true⟩
  | .notOk _ errText => ⟨500, errObj2 "Failed to analyze image" "details" errText, true⟩
  | .ok data =>
    match getContentScan data with
    | .error _ => ⟨500, errObj2 "Internal server error" "message" typeErrMsg, true⟩
    | .ok contentOpt =>
      if ¬ truthyOpt contentOpt then
        ⟨500, errObj "No analysis returned from AI", true⟩
      else
        let content := contentOpt.getD Json.null
        match parseJsonStr (jsToString content) with
        | none => ⟨200, scanFallbackBody, true⟩
        | some parsed =>
          if parsed = Json.null then ⟨200, scanFallbackBody, true⟩
          else
            match getField parsed "results" with
            | some (Json.arr xs) =>
              if xs.any (· = Json.null) then ⟨200, scanFallbackBody, true⟩
              else ⟨200, Json.obj [("results", Json.arr (xs.map validateItem))], true⟩
            | _ => ⟨200, scanFallbackBody, true⟩

/-- The `scan-meal` edge function (`supabase/functions/scan-meal/index.ts`)
on a POST request: `req` is the outcome of `await req.json()` (`error`
carries the thrown message), `apiKey` is `Deno.env.get('OPENAI_API_KEY')`,
`up` the outcome of the OpenAI call.  The CORS-preflight branch is not
modelled.  Two pre-fetch `TypeError` paths reach the outer catch before
any outbound call: destructuring `{ image, prompt }` of a `null` body, and
`image.replace(...)` on a truthy image that is not a string (no `.replace`
method) — the latter sits after the key check and before the `fetch` in
the source, hence its position here.  The prefix strip itself (on a string
image) affects no response field and is otherwise not modelled. -/
def scanMeal (req : Except String Json) (apiKey : Option String) (up : Upstream) : Response :=
  match req with
  | .error msg => ⟨500, errObj2 "Internal server error" "message" msg, false⟩
  | .ok body =>
    if body = Json.null then
      ⟨500, errObj2 "Internal server error" "message" typeErrMsg, false⟩
    else if ¬ truthyOpt (getField body "image") then
      ⟨400, errObj "No image provided", false⟩
    else if ¬ keyTruthy apiKey then
      ⟨500, errObj "OpenAI API key not configured", false⟩
    else
      match getField body "image" with
      | some (Json.str _) => scanMealUpstream up
      | _ => ⟨500, errObj2 "Internal server error" "message" typeErrMsg, false⟩

/-- `Array.isArray`-conditioned wrapping of the estimate-nutrition
function: a non-array value becomes a one-element array. -/
def wrapArr (j : Json) : Json :=
  match j with
  | .arr _ => j
  | _ => .arr [j]

/-- The fallback `nutritionData` of the estimate-nutrition function, whose
`name` interpolates the query value. -/
def estimateFallbackData (fq : Json) : Json :=
  Json.arr [Json.obj [
    ("name", Json.str (jsToString fq ++ " (estimated)")),
    ("calories", Json.num 100),
    ("protein", Json.num 5),
    ("carbs", Json.num 15),
    ("fat", Json.num 3),
    ("serving_size", Json.str "100g")]]

/-- Lines 29-103 of the estimate-nutrition function: the stage from the
`fetch` onward (`fq` is the destructured `foodQuery`, used by the fallback
name).  A non-2xx upstream status raises `Error('OpenAI API error:
<status>')`, which the outer catch converts into a 500 `{error, details}`
body.  Successfully parsed content is returned verbatim (wrapped into an
array if it is not one); only a `JSON.parse` failure substitutes the
fallback. -/
def estimateUpstream (fq : Option Json) (up : Upstream) : Response :=
  match up with
  | .fail msg => ⟨500, errObj2 "Failed to estimate nutrition" "details" msg, true⟩
  | .notOk st _ =>
    ⟨500, errObj2 "Failed to estimate nutrition" "details"
      ("OpenAI API error: " ++ natToStr st), true⟩
  | .ok data =>
    match getContentEstimate data with
    | .error _ => ⟨500, errObj2 "Failed to estimate nutrition" "details" typeErrMsg, true⟩
    | .ok s =>
      let nutritionData :=
        match parseJsonStr s with
        | some j => j
        | none => estimateFallbackData (fq.getD Json.null)
      ⟨200, Json.obj [("results", wrapArr nutritionData)], true⟩

/-- The estimate-nutrition edge function on a POST request: `req` is the
outcome of `await req.json()`, `apiKey` is `Deno.env.get('OPENAI_KEY')`
(read but never checked: it only feeds the Authorization header, so it
does not influence control flow), `up` the outcome of the OpenAI call.
Destructuring `const { foodQuery } = ...` of a `null` body throws a
`TypeError`, which the outer catch converts into a 500 before any
outbound call (any non-null body destructures fine, a missing field
reading as `undefined`). -/
def estimateNutrition (req : Except String Json) (apiKey : Option String) (up : Upstream) :
    Response :=
  match req with
  | .error msg => ⟨500, errObj2 "Failed to estimate nutrition" "details" msg, false⟩
  | .ok body =>
    if body = Json.null then
      ⟨500, errObj2 "Failed to estimate nutrition" "details" typeErrMsg, false⟩
    else
      let fq := getField body "foodQuery"
      if ¬ truthyOpt fq then
        ⟨400, errObj "Food query is required", false⟩
      else
        estimateUpstream fq up

/-- An upstream 2xx body with `choices[0].message.content` set to the given
raw model text. -/
def mkChoices (content : String) : Json :=
  Json.obj [("choices", Json.arr [Json.obj [("message",
    Json.obj [("content", Json.str content)])]])]

/-- Gender of a user profile. -/
inductive Gender where
  | male
  | female

/-- Activity level of a user profile. -/
inductive ActivityLevel where
  | sedentary
  | light
  | moderate
  | active
  | veryActive

/-- Goal of a user profile. -/
inductive Goal where
  | bulk
  | cut
  | maintain

/-- `Math.round` on the rational model of JavaScript numbers (round half
toward positive infinity). -/
def jsRound (q : ℚ) : ℤ := ⌊q + 1 / 2⌋

/-- `calculateBMR` of the Settings page (Mifflin-St Jeor). -/
def calculateBMR (weight height age : ℚ) : Gender → ℚ
  | .male => 10 * weight + 6.25 * height - 5 * age + 5
  | .female => 10 * weight + 6.25 * height - 5 * age - 161

/-- The `activityMultipliers` table of the Settings page. -/
def activityMultiplier : ActivityLevel → ℚ
  | .sedentary => 1.2
  | .light => 1.375
  | .moderate => 1.55
  | .active => 1.725
  | .veryActive => 1.9

/-- `calculateMaintenanceCalories` of the Settings page. -/
def calculateMaintenanceCalories (bmr : ℚ) (a : ActivityLevel) : ℚ :=
  (jsRound (bmr * activityMultiplier a) : ℤ)

/-- `calculateTargetCalories` of the Settings page. -/
def calculateTargetCalories (maintenanceCalories : ℚ) : Goal → ℚ
  | .bulk => (jsRound (maintenanceCalories + 500) : ℤ)
  | .cut => (jsRound (maintenanceCalories - 500) : ℤ)
  | .maintain => maintenanceCalories


/-! ### Concrete fixtures used by the claim theorems -/

/-- The upstream reply text of the spec's end-to-end example: a JSON
OBJECT with a `results` array holding one item. -/
def chickenReply : String :=
  "\x7b\"results\":[\x7b\"name\":\"grilled chicken breast\",\"calories\":165,\"protein\":31,\"carbs\":0,\"fat\":3.6,\"serving_size\":\"100g\"\x7d]\x7d"

/-- The single item of the spec's end-to-end example, as raw JSON text. -/
def chickenItemText : String :=
  "\x7b\"name\":\"grilled chicken breast\",\"calories\":165,\"protein\":31,\"carbs\":0,\"fat\":3.6,\"serving_size\":\"100g\"\x7d"

/-- The single item of the spec's end-to-end example, as a value. -/
def chickenItem : Json :=
  Json.obj [("name", Json.str "grilled chicken breast"), ("calories", Json.num 165),
    ("protein", Json.num 31), ("carbs", Json.num 0), ("fat", Json.num (mkRat 18 5)),
    ("serving_size", Json.str "100g")]

/-- The request body of the spec's end-to-end example. -/
def chickenReq : Json := Json.obj [("foodQuery", Json.str "grilled chicken breast")]

/-- A well-formed `scan-meal` request body. -/
def imgReq : Json := Json.obj [("image", Json.str "data:image/png;base64,AAAA")]

/-- Raw model text containing two JSON objects separated by prose. -/
def twoObjs : String := "note \x7b\"a\":1\x7d and \x7b\"b\":2\x7d tail"

/-- The spec's Banana reply embedded in brace-free surrounding prose. -/
def bananaText : String :=
  "Here is the nutrition info: \x7b\"results\":[\x7b\"name\":\"Banana\",\"calories\":105,\"protein\":1.3,\"carbs\":27,\"fat\":0.4,\"serving_size\":\"1 medium (118g)\"\x7d]\x7d Hope that helps!"

/-- The same text with one more closing brace in the trailing prose. -/
def bananaTextBrace : String := bananaText ++ " :\x7d"

/-- The Banana item after the client-side cleaning map. -/
def bananaItem : FoodItem :=
  ⟨some (Json.str "Banana"), 105, mkRat 13 10, 27, mkRat 2 5, Json.str "1 medium (118g)"⟩

/-! ### Helper lemmas -/

/-- Every branch of the client pipeline yields a nonempty list: each
failure path substitutes the fallback, and the success path is guarded by
a nonemptiness test. -/
theorem processContent_ne_nil (content : String) (fb : FoodItem) :
    processContent content fb ≠ [] := by
  unfold processContent
  repeat' split
  all_goals try simp
  all_goals split <;> simp_all [List.isEmpty_iff]

/-- With a truthy `foodQuery` (which forces a non-null body) the
estimate-nutrition handler passes its precondition checks and reaches the
upstream stage. -/
theorem estimate_reaches_upstream (body : Json) (key : Option String) (up : Upstream)
    (hfq : truthyOpt (getField body "foodQuery") = true) :
    estimateNutrition (.ok body) key up = estimateUpstream (getField body "foodQuery") up := by
  have hb : body ≠ Json.null := by
    intro h
    rw [h] at hfq
    simp [getField, truthyOpt] at hfq
  simp [estimateNutrition, hb, hfq]

/-- With a nonempty STRING image (so that `image.replace` does not throw)
and a configured key, the `scan-meal` handler passes its precondition
checks and reaches the upstream stage. -/
theorem scanMeal_reaches_upstream (body : Json) (key : Option String) (up : Upstream)
    (si : String) (himg : getField body "image" = some (Json.str si)) (hsi : si ≠ "")
    (hkey : keyTruthy key = true) :
    scanMeal (.ok body) key up = scanMealUpstream up := by
  have hb : body ≠ Json.null := by
    intro h
    rw [h] at himg
    simp [getField] at himg
  have hsie : si.isEmpty = false := by
    cases h : si.isEmpty
    · rfl
    · exact absurd ((String.isEmpty_iff si).mp h) hsi
  simp [scanMeal, hb, himg, hkey, truthyOpt, truthy, hsie]

/-! ### Claim C1 -/

/-- Claim C1 (counterexample): with a well-formed request and a configured
key, a non-2xx upstream reply makes the estimate-nutrition handler return
HTTP 500 with an `error` body — not an HTTP 200 fallback list. -/
theorem c1_counterexample :
    (estimateNutrition (.ok chickenReq) (some "k") (.notOk 500 "boom")).status = 500 ∧
    (estimateNutrition (.ok chickenReq) (some "k") (.notOk 500 "boom")).status ≠ 200 ∧
    (estimateNutrition (.ok chickenReq) (some "k") (.notOk 500 "boom")).body =
      errObj2 "Failed to estimate nutrition" "details" "OpenAI API error: 500" := by
  decide

/-- Claim C1 (amended): with a well-formed request (truthy query for
estimate-nutrition; nonempty string image for scan-meal) and a configured
key, an outbound-call failure (fetch rejection or non-2xx status) makes
both gateway handlers return an HTTP 500 response with an `error` JSON
body; the fallback item is substituted only for unparseable model
content, never for upstream failures. -/
theorem c1_amended (body bodyS : Json) (key : Option String) (st : Nat) (etxt msg si : String)
    (hfq : truthyOpt (getField body "foodQuery") = true)
    (himg : getField bodyS "image" = some (Json.str si))
    (hsi : si ≠ "")
    (hkey : keyTruthy key = true) :
    (estimateNutrition (.ok body) key (.notOk st etxt)).status = 500 ∧
    (estimateNutrition (.ok body) key (.fail msg)).status = 500 ∧
    (scanMeal (.ok bodyS) key (.notOk st etxt)).status = 500 ∧
    (scanMeal (.ok bodyS) key (.fail msg)).status = 500 ∧
    getField (estimateNutrition (.ok body) key (.notOk st etxt)).body "error" =
      some (Json.str "Failed to estimate nutrition") ∧
    getField (scanMeal (.ok bodyS) key (.notOk st etxt)).body "error" =
      some (Json.str "Failed to analyze image") := by
  rw [estimate_reaches_upstream body key (.notOk st etxt) hfq,
    estimate_reaches_upstream body key (.fail msg) hfq,
    scanMeal_reaches_upstream bodyS key (.notOk st etxt) si himg hsi hkey,
    scanMeal_reaches_upstream bodyS key (.fail msg) si himg hsi hkey]
  simp [estimateUpstream, scanMealUpstream, errObj2, getField, lookupLast]

/-- Claim C1 (witness): the amended statement at a concrete request, key
and upstream failure. -/
theorem c1_witness :
    (estimateNutrition (.ok chickenReq) (some "k") (.notOk 503 "down")).status = 500 ∧
    (estimateNutrition (.ok chickenReq) (some "k") (.fail "net")).status = 500 ∧
    (scanMeal (.ok imgReq) (some "k") (.notOk 503 "down")).status = 500 ∧
    (scanMeal (.ok imgReq) (some "k") (.fail "net")).status = 500 ∧
    getField (estimateNutrition (.ok chickenReq) (some "k") (.notOk 503 "down")).body "error" =
      some (Json.str "Failed to estimate nutrition") ∧
    getField (scanMeal (.ok imgReq) (some "k") (.notOk 503 "down")).body "error" =
      some (Json.str "Failed to analyze image") :=
  c1_amended chickenReq imgReq (some "k") 503 "down" "net" "data:image/png;base64,AAAA"
    (by decide) (by decide) (by decide) (by decide)

/-! ### Claim C2 -/

/-- Claim C2 (counterexample): when the model's payload parses to
`{"results":[]}` — zero items, hence zero valid items — the `scan-meal`
handler returns an EMPTY results list with HTTP 200, not a single
fallback item. -/
theorem c2_counterexample :
    scanMeal (.ok imgReq) (some "k") (.ok (mkChoices "\x7b\"results\":[]\x7d")) =
      ⟨200, Json.obj [("results", Json.arr [])], true⟩ := by
  decide

/-- Claim C2 (amended): whenever the (truthy) model content does not parse
to a value carrying an ARRAY `results` field — `JSON.parse` failure, a
parsed `null`, or any shapeless value such as `{"x":1}` or a bare array —
the `scan-meal` handler substitutes exactly one fallback item (and
`scanFallbackBody` indeed holds exactly one item); yet an empty parsed
`results` array IS the results shape and is passed through as an empty
list (the counterexample), and the client-side pipeline of
`FoodSearch.tsx` never yields an empty list. -/
theorem c2_amended (body : Json) (key : Option String) (si s : String)
    (himg : getField body "image" = some (Json.str si))
    (hsi : si ≠ "")
    (hkey : keyTruthy key = true)
    (hs : s ≠ "")
    (hshape : ∀ parsed xs, parseJsonStr s = some parsed →
      getField parsed "results" ≠ some (Json.arr xs)) :
    scanMeal (.ok body) key (.ok (mkChoices s)) = ⟨200, scanFallbackBody, true⟩ ∧
    (∃ item, scanFallbackBody = Json.obj [("results", Json.arr [item])]) ∧
    (∀ content fb, processContent content fb ≠ []) := by
  refine ⟨?_, ⟨_, rfl⟩, fun content fb => processContent_ne_nil content fb⟩
  rw [scanMeal_reaches_upstream body key (.ok (mkChoices s)) si himg hsi hkey]
  have hcontent : getContentScan (mkChoices s) = .ok (some (Json.str s)) := rfl
  have hse : s.isEmpty = false := by
    cases h : s.isEmpty
    · rfl
    · exact absurd ((String.isEmpty_iff s).mp h) hs
  rcases hps : parseJsonStr s with _ | parsed
  · simp [scanMealUpstream, hcontent, truthyOpt, truthy, hse, jsToString, hps]
  · by_cases hpn : parsed = Json.null
    · simp [scanMealUpstream, hcontent, truthyOpt, truthy, hse, jsToString, hps, hpn]
    · rcases hgf : getField parsed "results" with _ | v
      · simp [scanMealUpstream, hcontent, truthyOpt, truthy, hse, jsToString, hps, hpn, hgf]
      · cases v with
        | arr xs => exact absurd hgf (hshape parsed xs hps)
        | null =>
          simp [scanMealUpstream, hcontent, truthyOpt, truthy, hse, jsToString, hps, hpn, hgf]
        | bool b =>
          simp [scanMealUpstream, hcontent, truthyOpt, truthy, hse, jsToString, hps, hpn, hgf]
        | num q =>
          simp [scanMealUpstream, hcontent, truthyOpt, truthy, hse, jsToString, hps, hpn, hgf]
        | str t =>
          simp [scanMealUpstream, hcontent, truthyOpt, truthy, hse, jsToString, hps, hpn, hgf]
        | obj fs =>
          simp [scanMealUpstream, hcontent, truthyOpt, truthy, hse, jsToString, hps, hpn, hgf]

/-- Claim C2 (witness): the amended statement at the spec's own fallback
example input, the non-JSON reply "I cannot help with that.". -/
theorem c2_witness :
    scanMeal (.ok imgReq) (some "k") (.ok (mkChoices "I cannot help with that.")) =
      ⟨200, scanFallbackBody, true⟩ ∧
    (∃ item, scanFallbackBody = Json.obj [("results", Json.arr [item])]) ∧
    (∀ content fb, processContent content fb ≠ []) :=
  c2_amended imgReq (some "k") "data:image/png;base64,AAAA" "I cannot help with that."
    (by decide) (by decide) (by decide) (by decide)
    (fun parsed xs h => by
      rw [(by decide : parseJsonStr "I cannot help with that." = none)] at h
      exact Option.noConfusion h)

/-! ### Claim C5 -/

/-- Claim C5 (counterexample): on the spec's end-to-end example the
estimate-nutrition handler does NOT return `{"results":[item]}`: the
upstream reply is a JSON object, which is not an array, so it is wrapped
whole, producing a doubly nested `{"results":[{"results":[item]}]}`. -/
theorem c5_counterexample :
    estimateNutrition (.ok chickenReq) (some "k") (.ok (mkChoices chickenReply)) =
      ⟨200, Json.obj [("results", Json.arr [Json.obj [("results", Json.arr [chickenItem])]])],
        true⟩ ∧
    Json.obj [("results", Json.arr [Json.obj [("results", Json.arr [chickenItem])]])] ≠
      Json.obj [("results", Json.arr [chickenItem])] := by
  decide

/-- Claim C5 (amended): with the spec's object-shaped reply the handler
returns the reply wrapped whole inside the results list (a doubly nested
body, not the claimed one); the claimed output `{"results":[item]}` is
produced by replies parsing to the bare ARRAY `[item]` (passed through
as an array) and equally by the bare item object alone (a non-array,
wrapped as a singleton). -/
theorem c5_amended :
    estimateNutrition (.ok chickenReq) (some "k") (.ok (mkChoices chickenReply)) =
      ⟨200, Json.obj [("results", Json.arr [Json.obj [("results", Json.arr [chickenItem])]])],
        true⟩ ∧
    estimateNutrition (.ok chickenReq) (some "k")
        (.ok (mkChoices ("[" ++ chickenItemText ++ "]"))) =
      ⟨200, Json.obj [("results", Json.arr [chickenItem])], true⟩ ∧
    estimateNutrition (.ok chickenReq) (some "k") (.ok (mkChoices chickenItemText)) =
      ⟨200, Json.obj [("results", Json.arr [chickenItem])], true⟩ := by
  decide

/-! ### Claim C6 -/

/-- Claim C6 (counterexample): the extraction step is NOT
"first balanced `{...}` substring": on a text with two objects the greedy
regex takes everything from the first `{` to the last `}`, differing from
the first balanced substring; and with a single extra `}` in the trailing
prose, the Banana reply no longer parses and the pipeline falls back
instead of yielding the Banana item. -/
theorem c6_counterexample :
    extractJson twoObjs.data ≠ firstBalancedSubstring twoObjs.data ∧
    firstBalancedSubstring twoObjs.data = some "\x7b\"a\":1\x7d".data ∧
    extractJson twoObjs.data = some "\x7b\"a\":1\x7d and \x7b\"b\":2\x7d".data ∧
    processContent bananaTextBrace mixedMealFallback = [mixedMealFallback] ∧
    processContent bananaTextBrace mixedMealFallback ≠ [bananaItem] := by
  decide

/-- Claim C6 (amended): extraction takes the substring from the first `{`
to the LAST `}` (greedy regex), and parsing is extraction-exact for the
fixed Banana reply only when the surrounding prose contains no further
braces: on such a text the pipeline yields exactly the one Banana item
with all field values unchanged. -/
theorem c6_amended :
    processContent bananaText mixedMealFallback = [bananaItem] ∧
    extractJson bananaText.data =
      some "\x7b\"results\":[\x7b\"name\":\"Banana\",\"calories\":105,\"protein\":1.3,\"carbs\":27,\"fat\":0.4,\"serving_size\":\"1 medium (118g)\"\x7d]\x7d".data := by
  decide

/-! ### Claim C3 -/

/-- Claim C3 (counterexample): a parsed item with `calories: -5` is
returned on an HTTP 200 response with its negative calories intact — the
numeric fields are not coerced to non-negative numbers. -/
theorem c3_counterexample :
    scanMeal (.ok imgReq) (some "k")
        (.ok (mkChoices "\x7b\"results\":[\x7b\"name\":\"x\",\"calories\":-5\x7d]\x7d")) =
      ⟨200, Json.obj [("results", Json.arr [Json.obj [
        ("name", Json.str "x"), ("calories", Json.num (mkRat (-5) 1)),
        ("protein", Json.num 0), ("carbs", Json.num 0), ("fat", Json.num 0),
        ("serving_size", Json.str "1 serving")]])], true⟩ ∧
    mkRat (-5) 1 < 0 := by
  decide

/-- Claim C3 (amended): every item produced by the `scan-meal` validation
map has all six fields present with numeric fields numbers; a missing
`calories` coerces to 0, a numeric `calories` passes through unchanged
(negative values included), and missing `name`/`serving_size` default to
`'Unknown food'`/`'1 serving'`.  (The estimate-nutrition handler performs
no such validation at all; see claim C10.) -/
theorem c3_amended (item : Json) :
    ∃ nm q1 q2 q3 q4 sz,
      validateItem item = Json.obj [("name", nm), ("calories", Json.num q1),
        ("protein", Json.num q2), ("carbs", Json.num q3), ("fat", Json.num q4),
        ("serving_size", sz)] ∧
      (getField item "calories" = none → q1 = 0) ∧
      (∀ q, getField item "calories" = some (Json.num q) → q1 = q) ∧
      (getField item "name" = none → nm = Json.str "Unknown food") ∧
      (getField item "serving_size" = none → sz = Json.str "1 serving") := by
  refine ⟨_, _, _, _, _, _, rfl, ?_, ?_, ?_, ?_⟩
  · intro hc
    simp [numberOr0, jsToNumber, hc]
  · intro q hc
    simp [numberOr0, jsToNumber, hc]
  · intro hn
    simp [jsOr, hn]
  · intro hs
    simp [jsOr, hs]

/-- Claim C3 (witness): the amended statement at an item carrying negative
calories and no other fields. -/
theorem c3_witness :
    ∃ nm q1 q2 q3 q4 sz,
      validateItem (Json.obj [("calories", Json.num (mkRat (-5) 1))]) =
        Json.obj [("name", nm), ("calories", Json.num q1),
          ("protein", Json.num q2), ("carbs", Json.num q3), ("fat", Json.num q4),
          ("serving_size", sz)] ∧
      (getField (Json.obj [("calories", Json.num (mkRat (-5) 1))]) "calories" = none →
        q1 = 0) ∧
      (∀ q, getField (Json.obj [("calories", Json.num (mkRat (-5) 1))]) "calories" =
        some (Json.num q) → q1 = q) ∧
      (getField (Json.obj [("calories", Json.num (mkRat (-5) 1))]) "name" = none →
        nm = Json.str "Unknown food") ∧
      (getField (Json.obj [("calories", Json.num (mkRat (-5) 1))]) "serving_size" = none →
        sz = Json.str "1 serving") :=
  c3_amended (Json.obj [("calories", Json.num (mkRat (-5) 1))])

/-! ### Claim C4 -/

/-- Claim C4 (counterexample): the `scan-meal` handler does NOT drop an
entry that has no name and no calories: the entry is retained with
defaulted fields, so the returned list is not empty. -/
theorem c4_counterexample :
    scanMeal (.ok imgReq) (some "k") (.ok (mkChoices "\x7b\"results\":[\x7b\x7d]\x7d")) =
      ⟨200, Json.obj [("results", Json.arr [Json.obj [
        ("name", Json.str "Unknown food"), ("calories", Json.num 0),
        ("protein", Json.num 0), ("carbs", Json.num 0), ("fat", Json.num 0),
        ("serving_size", Json.str "1 serving")]])], true⟩ ∧
    (scanMeal (.ok imgReq) (some "k")
        (.ok (mkChoices "\x7b\"results\":[\x7b\x7d]\x7d"))).body ≠
      Json.obj [("results", Json.arr [])] := by
  decide

/-- Claim C4 (amended): the dropping of entries with falsy name or
non-numeric/non-positive calories happens in the client-side pipeline of
`FoodSearch.tsx`, and only on its happy path: when extraction and parse
succeed with a value whose `results` field is an array, an empty array
gives the fallback; a `null` entry makes the filter throw (`null.name`),
giving the fallback; zero surviving entries give the fallback; and
otherwise the result is exactly the entries with a truthy name and
numeric calories > 0, in their original order, cleaned.  The `scan-meal`
edge function drops nothing: its validation map retains every entry (the
output list always has the length of the parsed `results` list). -/
theorem c4_amended (content : String) (fb : FoodItem) (js : List Char) (parsed : Json)
    (xs : List Json)
    (hex : extractJson content.data = some js)
    (hp : parseJson js = some parsed)
    (hres : getField parsed "results" = some (Json.arr xs)) :
    (xs = [] → processContent content fb = [fb]) ∧
    (xs.any (· = Json.null) = true → processContent content fb = [fb]) ∧
    (xs.any (· = Json.null) = false → xs.filter keepItem = [] →
      processContent content fb = [fb]) ∧
    (xs.any (· = Json.null) = false → xs.filter keepItem ≠ [] →
      processContent content fb = (xs.filter keepItem).map coerceItem) ∧
    (∀ ys : List Json, (ys.map validateItem).length = ys.length) := by
  have hnn : parsed ≠ Json.null := by
    intro h
    rw [h] at hres
    simp [getField] at hres
  refine ⟨?_, ?_, ?_, ?_, fun ys => by simp⟩
  · intro h
    subst h
    simp [processContent, hex, hp, hres, hnn]
  · intro hany
    have hlen : 0 < xs.length := by
      cases xs with
      | nil => simp at hany
      | cons y ys => simp
    simp [processContent, hex, hp, hres, hnn, hlen, hany]
  · intro hany hfil
    by_cases hxs : xs = []
    · subst hxs
      simp [processContent, hex, hp, hres, hnn]
    · have hlen : 0 < xs.length := List.length_pos.mpr hxs
      simp [processContent, hex, hp, hres, hnn, hlen, hany, hfil, List.isEmpty_iff]
  · intro hany hfil
    have hxs : xs ≠ [] := by
      intro h
      exact hfil (by simp [h])
    have hlen : 0 < xs.length := List.length_pos.mpr hxs
    simp [processContent, hex, hp, hres, hnn, hlen, hany, hfil, List.isEmpty_iff]

/-- Raw model text whose `results` list holds one entry passing the client
filter and one nameless entry that the filter drops. -/
def mixedEntriesText : String :=
  "\x7b\"results\":[\x7b\"name\":\"a\",\"calories\":5\x7d,\x7b\"calories\":7\x7d]\x7d"

/-- Claim C4 (witness): the amended statement at a concrete reply whose
second entry has no name: the pipeline keeps exactly the named entry. -/
theorem c4_witness :
    processContent mixedEntriesText mixedMealFallback =
      (([Json.obj [("name", Json.str "a"), ("calories", Json.num 5)],
         Json.obj [("calories", Json.num 7)]].filter keepItem).map coerceItem) ∧
    (∀ ys : List Json, (ys.map validateItem).length = ys.length) := by
  have h := c4_amended mixedEntriesText mixedMealFallback mixedEntriesText.data
    (Json.obj [("results", Json.arr [Json.obj [("name", Json.str "a"), ("calories", Json.num 5)],
      Json.obj [("calories", Json.num 7)]])])
    [Json.obj [("name", Json.str "a"), ("calories", Json.num 5)],
     Json.obj [("calories", Json.num 7)]]
    (by decide) (by decide) (by decide)
  exact ⟨h.2.2.2.1 (by decide) (by decide), h.2.2.2.2⟩

/-! ### Claim C7 -/

/-- Claim C7 (counterexample): a whitespace-only `foodQuery` is truthy, so
the estimate-nutrition handler does NOT reject it: the outbound call to
the model is performed, and the response is whatever the upstream outcome
dictates (here 500), not a structured 4xx. -/
theorem c7_counterexample :
    (estimateNutrition (.ok (Json.obj [("foodQuery", Json.str "   ")])) (some "k")
        (.notOk 429 "rate")).calledUpstream = true ∧
    (estimateNutrition (.ok (Json.obj [("foodQuery", Json.str "   ")])) (some "k")
        (.notOk 429 "rate")).status = 500 := by
  decide

/-- Claim C7 (amended): a FALSY query value (missing field, empty string,
0, null, false) or a falsy image in a non-null JSON body is rejected with
a structured 400 and no outbound call; a JSON-null request body instead
makes the destructuring throw, yielding a 500 — also without an outbound
call; and a whitespace-only query text is truthy and is not rejected
(see the counterexample). -/
theorem c7_amended (body bodyS : Json) (key : Option String) (up : Upstream)
    (hb : body ≠ Json.null)
    (hbs : bodyS ≠ Json.null)
    (hfq : truthyOpt (getField body "foodQuery") = false)
    (himg : truthyOpt (getField bodyS "image") = false) :
    estimateNutrition (.ok body) key up = ⟨400, errObj "Food query is required", false⟩ ∧
    scanMeal (.ok bodyS) key up = ⟨400, errObj "No image provided", false⟩ ∧
    estimateNutrition (.ok Json.null) key up =
      ⟨500, errObj2 "Failed to estimate nutrition" "details" typeErrMsg, false⟩ ∧
    scanMeal (.ok Json.null) key up =
      ⟨500, errObj2 "Internal server error" "message" typeErrMsg, false⟩ := by
  refine ⟨?_, ?_, ?_, ?_⟩
  · simp [estimateNutrition, hb, hfq]
  · simp [scanMeal, hbs, himg]
  · simp [estimateNutrition]
  · simp [scanMeal]

/-- Claim C7 (witness): the amended statement at a body with no
`foodQuery` and a body with an empty `image` string. -/
theorem c7_witness :
    estimateNutrition (.ok (Json.obj [])) none (.fail "never") =
      ⟨400, errObj "Food query is required", false⟩ ∧
    scanMeal (.ok (Json.obj [("image", Json.str "")])) none (.fail "never") =
      ⟨400, errObj "No image provided", false⟩ ∧
    estimateNutrition (.ok Json.null) none (.fail "never") =
      ⟨500, errObj2 "Failed to estimate nutrition" "details" typeErrMsg, false⟩ ∧
    scanMeal (.ok Json.null) none (.fail "never") =
      ⟨500, errObj2 "Internal server error" "message" typeErrMsg, false⟩ :=
  c7_amended (Json.obj []) (Json.obj [("image", Json.str "")]) none (.fail "never")
    (by decide) (by decide) (by decide) (by decide)

/-! ### Claim C8 -/

/-- Claim C8 (counterexample): the estimate-nutrition handler never checks
its credential: with the key absent it still performs the outbound call,
and with a successful upstream reply it answers 200, not 500. -/
theorem c8_counterexample :
    estimateNutrition (.ok chickenReq) none (.ok (mkChoices "[]")) =
      ⟨200, Json.obj [("results", Json.arr [])], true⟩ ∧
    (estimateNutrition (.ok chickenReq) none (.ok (mkChoices "[]"))).status ≠ 500 ∧
    (estimateNutrition (.ok chickenReq) none (.ok (mkChoices "[]"))).calledUpstream = true := by
  decide

/-- Claim C8 (amended): only the `scan-meal` handler checks the
credential: with a well-formed request and the key absent (or empty) it
returns HTTP 500 `{"error": "OpenAI API key not configured"}` before
invoking the external model; the estimate-nutrition handler performs no
such check. -/
theorem c8_amended (bodyS : Json) (key : Option String) (up : Upstream)
    (himg : truthyOpt (getField bodyS "image") = true)
    (hkey : keyTruthy key = false) :
    scanMeal (.ok bodyS) key up = ⟨500, errObj "OpenAI API key not configured", false⟩ := by
  have hb : bodyS ≠ Json.null := by
    intro h
    rw [h] at himg
    simp [getField, truthyOpt] at himg
  simp [scanMeal, hb, himg, hkey]

/-- Claim C8 (witness): the amended statement at a concrete request with
the key absent. -/
theorem c8_witness :
    scanMeal (.ok imgReq) none (.fail "never") =
      ⟨500, errObj "OpenAI API key not configured", false⟩ :=
  c8_amended imgReq none (.fail "never") (by decide) (by decide)

/-! ### Claim C9 -/

/-- `Math.round` of an integer plus an integer offset is exact: the added
half never crosses a boundary. -/
theorem jsRound_int_offset (j n : ℤ) : jsRound ((j : ℚ) + (n : ℚ)) = j + n := by
  unfold jsRound
  have h1 : (j : ℚ) + (n : ℚ) + 1 / 2 = 1 / 2 + ((j + n : ℤ) : ℚ) := by
    push_cast
    ring
  rw [h1, Int.floor_add_int]
  have h2 : ⌊(1 / 2 : ℚ)⌋ = 0 := by
    apply Int.floor_eq_zero_iff.mpr
    rw [Set.mem_Ico]
    constructor <;> norm_num
  rw [h2]
  ring

/-- Claim C9: the Settings-page calorie computation implements the closed
formulas — Mifflin-St Jeor BMR (`10w + 6.25h − 5a + 5` male,
`10w + 6.25h − 5a − 161` female), maintenance as `Math.round` of BMR times
the activity multiplier (1.2 / 1.375 / 1.55 / 1.725 / 1.9), and target
calories exactly maintenance + 500 for bulk, − 500 for cut, unchanged for
maintain (the extra `Math.round` on the integral maintenance value is the
identity). -/
theorem c9_calorie_formulas (w h a : ℚ) (act : ActivityLevel) (g : Gender) :
    calculateBMR w h a .male = 10 * w + 6.25 * h - 5 * a + 5 ∧
    calculateBMR w h a .female = 10 * w + 6.25 * h - 5 * a - 161 ∧
    activityMultiplier .sedentary = 1.2 ∧
    activityMultiplier .light = 1.375 ∧
    activityMultiplier .moderate = 1.55 ∧
    activityMultiplier .active = 1.725 ∧
    activityMultiplier .veryActive = 1.9 ∧
    calculateMaintenanceCalories (calculateBMR w h a g) act =
      (jsRound (calculateBMR w h a g * activityMultiplier act) : ℤ) ∧
    calculateTargetCalories (calculateMaintenanceCalories (calculateBMR w h a g) act) .bulk =
      calculateMaintenanceCalories (calculateBMR w h a g) act + 500 ∧
    calculateTargetCalories (calculateMaintenanceCalories (calculateBMR w h a g) act) .cut =
      calculateMaintenanceCalories (calculateBMR w h a g) act - 500 ∧
    calculateTargetCalories (calculateMaintenanceCalories (calculateBMR w h a g) act) .maintain =
      calculateMaintenanceCalories (calculateBMR w h a g) act := by
  refine ⟨rfl, rfl, rfl, rfl, rfl, rfl, rfl, rfl, ?_, ?_, rfl⟩
  · simp only [calculateTargetCalories, calculateMaintenanceCalories]
    generalize jsRound (calculateBMR w h a g * activityMultiplier act) = j
    have h5 : ((j : ℚ) + 500) = ((j : ℚ) + ((500 : ℤ) : ℚ)) := by
      norm_num
    rw [h5, jsRound_int_offset]
    push_cast
    ring
  · simp only [calculateTargetCalories, calculateMaintenanceCalories]
    generalize jsRound (calculateBMR w h a g * activityMultiplier act) = j
    have h6 : ((j : ℚ) - 500) = ((j : ℚ) + ((-500 : ℤ) : ℚ)) := by
      push_cast
      ring
    rw [h6, jsRound_int_offset]
    push_cast
    ring

/-! ### Claim C10 -/

/-- Claim C10: whenever the trimmed upstream text parses as JSON, the
estimate-nutrition handler returns the parsed value verbatim inside
`results` — no field validation, coercion or defaulting — and `wrapArr`
wraps exactly the non-array values as a one-element list, so a bare JSON
object reply yields a one-item list containing that object unchanged. -/
theorem c10_verbatim (body : Json) (key : Option String) (s : String) (j : Json)
    (hfq : truthyOpt (getField body "foodQuery") = true)
    (hp : parseJsonStr (jsTrim s) = some j) :
    estimateNutrition (.ok body) key (.ok (mkChoices s)) =
      ⟨200, Json.obj [("results", wrapArr j)], true⟩ ∧
    (∀ xs, wrapArr (Json.arr xs) = Json.arr xs) ∧
    (∀ v, (∀ xs, v ≠ Json.arr xs) → wrapArr v = Json.arr [v]) := by
  refine ⟨?_, fun xs => rfl, ?_⟩
  · rw [estimate_reaches_upstream body key (.ok (mkChoices s)) hfq]
    have hcontent : getContentEstimate (mkChoices s) = .ok (jsTrim s) := rfl
    simp [estimateUpstream, hcontent, hp]
  · intro v hv
    cases v
    case arr xs => exact absurd rfl (hv xs)
    all_goals rfl

/-- The parsed value of the spec's example reply (a bare JSON object). -/
def chickenParsed : Json := Json.obj [("results", Json.arr [chickenItem])]

/-- Claim C10 (witness): the verbatim pass-through at the spec's example
reply, which is a bare object and therefore comes back wrapped alone. -/
theorem c10_witness :
    estimateNutrition (.ok chickenReq) (some "k") (.ok (mkChoices chickenReply)) =
      ⟨200, Json.obj [("results", wrapArr chickenParsed)], true⟩ ∧
    (∀ xs, wrapArr (Json.arr xs) = Json.arr xs) ∧
    (∀ v, (∀ xs, v ≠ Json.arr xs) → wrapArr v = Json.arr [v]) :=
  c10_verbatim chickenReq (some "k") chickenReply chickenParsed (by decide) (by decide)

end Caloric
